import Mathlib

/-!
Verification of the instagram-automation-agent core against its
natural-language specification.

Shallow embedding of:
* `services/outbound_queue.py`   — `OutboundQueue.enqueue`, `acquire_execution_lock`
* `services/supabase_service.py` — `get_outbound_job_by_idempotency_key`,
  `create_outbound_job`
* `services/queue_worker.py`     — `_on_failure`, `_is_safe_to_execute`,
  `_execute_job`
* `services/llm_service.py`      — `_parse_json_response`
* `routes/webhook_base.py`       — `verify_instagram_signature`, `webhook_pipeline`
* `scheduler/engagement_monitor.py` — per-comment routing and handlers
* `scheduler/weekly_attribution_learning.py` — `_adjust_weights`
* `tools/automation_tools.py`    — `_reply_to_comment`

Side-effecting calls (Redis, Supabase, HTTP) are modelled by explicit state
passing and effect traces; fallible calls are modelled with `Option` / outcome
parameters standing for the library call results observed by the code.
-/

namespace IGAgent

/-! ## Outbound queue data model (`services/outbound_queue.py`) -/

/-- A job dict as produced by callers of `OutboundQueue.enqueue`
(e.g. `content_tools.publish_post`).  Only the keys the queue and the worker
read are modelled; `payload` is opaque to the queue except for the key
`scheduled_post_id` that `QueueWorker._is_safe_to_execute` reads. -/
structure Job where
  job_id : String
  action_type : String
  priority : String
  endpoint : String
  payloadScheduledPostId : Option String
  business_account_id : String
  idempotency_key : String
  source : String
  created_at : Nat
  retry_count : Nat
  max_retries : Nat
  deriving Repr, DecidableEq

/-- A row of the `outbound_queue_jobs` Supabase table (the fields read by
`get_outbound_job_by_idempotency_key` and written by `create_outbound_job`).
`created_at` is modelled as a numeric timestamp so that the query's
`order("created_at", desc=True)` is a total order. -/
structure StoreRow where
  job_id : String
  action_type : String
  priority : String
  idempotency_key : String
  status : String
  created_at : Nat
  retry_count : Nat
  max_retries : Nat
  deriving Repr, DecidableEq

/-- Status filter of the idempotency query:
`.not_.in_("status", ["completed", "dlq"])`. -/
def isActiveStatus (st : String) : Bool :=
  st != "completed" && st != "dlq"

/-- Combined backend state seen by `OutboundQueue`.  `redisAvailable` models
`_redis_available`, `redisOk` models whether a Redis command raises,
`storeOk` models whether the Supabase client is configured and its queries
succeed (the code returns `{}` / raises-caught on the complementary paths). -/
structure QueueState where
  redisAvailable : Bool
  redisOk : Bool
  storeOk : Bool
  redisHigh : List Job
  redisNormal : List Job
  store : List StoreRow
  deriving Repr, DecidableEq

/-- Embeds `_priority_to_key`: HIGH list iff priority == "high", else NORMAL. -/
def priorityIsHigh (priority : String) : Bool := priority == "high"

/-- The rows matching the idempotency query's filters. -/
def activeMatches (store : List StoreRow) (key : String) : List StoreRow :=
  store.filter (fun r => r.idempotency_key == key && isActiveStatus r.status)

/-- Embeds `order("created_at", desc=True).limit(1)`: the match with the greatest
`created_at` (first such row on ties). -/
def latestRow : List StoreRow → Option StoreRow
  | [] => none
  | r :: rs =>
    match latestRow rs with
    | none => some r
    | some best => if best.created_at > r.created_at then some best else some r

/-- Embeds `SupabaseService.get_outbound_job_by_idempotency_key`
(`supabase_service.py:2056-2082`).  Returns `none` (the code's `{}`) when the
client is missing, the key is empty, or the query fails. -/
def getOutboundJobByIdempotencyKey (s : QueueState) (key : String) : Option StoreRow :=
  if !s.storeOk || key == "" then none
  else latestRow (activeMatches s.store key)

/-- Embeds `SupabaseService.create_outbound_job`: insert a `pending` row built from
the job dict. -/
def createOutboundJobRow (job : Job) : StoreRow :=
  { job_id := job.job_id
    action_type := job.action_type
    priority := job.priority
    idempotency_key := job.idempotency_key
    status := "pending"
    created_at := job.created_at
    retry_count := job.retry_count
    max_retries := job.max_retries }

/-- Return dict of `OutboundQueue.enqueue`. -/
structure EnqueueResult where
  success : Bool
  queued : Bool
  job_id : String
  deduplicated : Bool
  backend : Option String
  error : Option String
  deriving Repr, DecidableEq

/-- Push a job onto the Redis list selected by `_priority_to_key`
(`r.lpush(queue_key, job_json)`). -/
def redisPush (s : QueueState) (job : Job) : QueueState :=
  if priorityIsHigh job.priority then
    { s with redisHigh := job :: s.redisHigh }
  else
    { s with redisNormal := job :: s.redisNormal }

/-- Embeds `OutboundQueue.enqueue` (`outbound_queue.py:46-116`).
Step 1: idempotency check against the store (only when the key is non-empty).
Step 2: Redis `lpush` fast path.  Step 3: Supabase fallback insert.
Step 4: total failure. -/
def enqueue (s : QueueState) (job : Job) : EnqueueResult × QueueState :=
  let dedupHit : Option StoreRow :=
    if job.idempotency_key != "" then
      getOutboundJobByIdempotencyKey s job.idempotency_key
    else none
  match dedupHit with
  | some existing =>
    ({ success := true, queued := false, job_id := existing.job_id
       deduplicated := true, backend := none, error := none }, s)
  | none =>
    if s.redisAvailable && s.redisOk then
      ({ success := true, queued := true, job_id := job.job_id
         deduplicated := false, backend := some "redis", error := none },
       redisPush s job)
    else if s.storeOk then
      ({ success := true, queued := true, job_id := job.job_id
         deduplicated := false, backend := some "supabase", error := none },
       { s with store := s.store ++ [createOutboundJobRow job] })
    else
      ({ success := false, queued := false, job_id := job.job_id
         deduplicated := false, backend := none
         error := some "both_backends_failed" }, s)

/-- Jobs that are live after an enqueue: entries sitting in either Redis
priority list plus store rows whose status is active (not completed/dlq). -/
def liveJobCount (s : QueueState) : Nat :=
  s.redisHigh.length + s.redisNormal.length
    + (s.store.filter (fun r => isActiveStatus r.status)).length

/-- Number of active store rows carrying a given idempotency key. -/
def activeKeyCount (s : QueueState) (key : String) : Nat :=
  (activeMatches s.store key).length

/-- A healthy initial backend state: Redis up and working, Supabase up, all
queues and the store empty. -/
def c1State : QueueState :=
  { redisAvailable := true, redisOk := true, storeOk := true
    redisHigh := [], redisNormal := [], store := [] }

/-- A first reply job with idempotency key `k`. -/
def c1JobA : Job :=
  { job_id := "j1", action_type := "reply_comment", priority := "high"
    endpoint := "/api/instagram/reply-comment", payloadScheduledPostId := none
    business_account_id := "b", idempotency_key := "k", source := "webhook"
    created_at := 0, retry_count := 0, max_retries := 5 }

/-- A second job re-using idempotency key `k` (fresh `job_id`, as the
callers mint one per enqueue attempt). -/
def c1JobB : Job :=
  { job_id := "j2", action_type := "reply_comment", priority := "high"
    endpoint := "/api/instagram/reply-comment", payloadScheduledPostId := none
    business_account_id := "b", idempotency_key := "k", source := "webhook"
    created_at := 1, retry_count := 0, max_retries := 5 }

/-! ## Execution lock (`OutboundQueue.acquire_execution_lock`) -/

/-- Outcome of `r.set(lock_key, "1", nx=True, ex=ttl)`:
`ok true` — the key was set (lock acquired); `ok false` — the key already
existed (redis returns `None`, so `result is True` is `False`);
`raised` — the command raised. -/
inductive RedisSetOutcome where
  | ok (acquired : Bool)
  | raised
  deriving Repr, DecidableEq

/-- Embeds `OutboundQueue.acquire_execution_lock` (`outbound_queue.py:350-366`).
Redis down → `True`; command raised → `True` (fail open); otherwise the
`result is True` of the `SET NX`. -/
def acquireExecutionLock (redisAvailable : Bool) (setOutcome : RedisSetOutcome) : Bool :=
  if !redisAvailable then true
  else
    match setOutcome with
    | .ok acquired => acquired
    | .raised => true

/-! ## Queue worker (`services/queue_worker.py`) -/

/-- Embeds `RETRY_DELAYS = [60, 120, 240, 480, 960]` (`outbound_queue.py:27`). -/
def RETRY_DELAYS : List Int := [60, 120, 240, 480, 960]

/-- Embeds `RATE_LIMIT_DELAY_FLOOR = 300` (`queue_worker.py:29`). -/
def RATE_LIMIT_DELAY_FLOOR : Int := 300

/-- Embeds `RETRY_DELAYS[min(retry_count - 1, len(RETRY_DELAYS) - 1)]` where
`retry_count` is the already-incremented count (so the index is the number of
failures before this one). -/
def backoffDelay (retryCount : Nat) : Int :=
  RETRY_DELAYS.getD (min (retryCount - 1) (RETRY_DELAYS.length - 1)) 0

/-- Decision taken by `QueueWorker._on_failure` (`queue_worker.py:318-433`)
for a failed execution: dead-letter with a reason, or schedule a retry with a
delay.  The new (incremented) retry count is recorded on the retry branch. -/
inductive FailureDecision where
  | toDlq (reason : String)
  | toRetry (delaySeconds : Int) (newRetryCount : Nat)
  deriving Repr, DecidableEq

/-- The branch structure of `_on_failure`: increment `retry_count`; a
non-retryable error dead-letters immediately; otherwise retry while the
incremented count is `≤ max_retries`, computing the delay from the explicit
backend hint, the rate-limit floor, or the backoff table; otherwise
dead-letter with `max_retries_exceeded`. -/
def onFailureDecision (job : Job) (error : String) (retryable : Bool)
    (errorCategory : String) (retryAfterSeconds : Option Int) : FailureDecision :=
  let rc := job.retry_count + 1
  if !retryable then
    .toDlq ("non_retryable:" ++ errorCategory ++ ":" ++ error)
  else if rc ≤ job.max_retries then
    let delay : Int :=
      match retryAfterSeconds with
      | some d => d
      | none =>
        if errorCategory == "rate_limit" then
          max (backoffDelay rc) RATE_LIMIT_DELAY_FLOOR
        else
          backoffDelay rc
    .toRetry delay rc
  else
    .toDlq ("max_retries_exceeded:" ++ errorCategory ++ ":" ++ error)

/-- Side effects issued by the worker and the queue, in program order. -/
inductive Effect where
  | setJobStatus (jobId status : String)
  | backendPost (endpoint : String)
  | scheduleRetry (jobId : String) (delaySeconds : Int)
  | moveToDlq (jobId reason : String)
  | releaseLock (jobId : String)
  | settlePost (postId status : String)
  | auditLog (eventType action : String)
  deriving Repr, DecidableEq

/-- Effects of `_settle_publish_post_failure` /`_settle_publish_post_success`
guarded as in `_on_failure` / `_on_success`: only `publish_post` jobs that
carry a `scheduled_post_id` settle the scheduled post. -/
def settlePublishEffects (job : Job) (status : String) : List Effect :=
  if job.action_type == "publish_post" then
    match job.payloadScheduledPostId with
    | some pid => [.settlePost pid status]
    | none => []
  else []

/-- Effect trace of `QueueWorker._on_failure` after the decision: the order of
`move_to_dlq` / `schedule_retry`, `release_execution_lock`, publish-post
settlement and the audit write follows the source. -/
def onFailureEffects (job : Job) (error : String) (retryable : Bool)
    (errorCategory : String) (retryAfterSeconds : Option Int) : List Effect :=
  match onFailureDecision job error retryable errorCategory retryAfterSeconds with
  | .toDlq reason =>
    [.moveToDlq job.job_id reason, .releaseLock job.job_id]
      ++ settlePublishEffects job "failed"
      ++ [.auditLog "outbound_job_dlq" "dlq"]
  | .toRetry delay _ =>
    [.scheduleRetry job.job_id delay, .releaseLock job.job_id]

/-- Embeds `QueueWorker._is_safe_to_execute` (`queue_worker.py:212-240`).
`readStatus` models the Supabase read of `scheduled_posts.status`:
`none` — the query raised (the code logs and fails open);
`some st` — the query returned, with `st` the `status` value (`none` when the
row or the field is missing).  Non-`publish_post` jobs and jobs without a
`scheduled_post_id` are unconditionally safe. -/
def isSafeToExecute (job : Job) (readStatus : Option (Option String)) : Bool :=
  if job.action_type != "publish_post" then true
  else
    match job.payloadScheduledPostId with
    | none => true
    | some _ =>
      match readStatus with
      | none => true
      | some st => st == some "publishing"

/-- Outcome of `QueueWorker._call_backend` as observed by `_execute_job`'s
exception handlers: success with the response body's `id`, an
`httpx.HTTPStatusError` with the parsed structured error body, an
`httpx.TimeoutException`, or any other exception. -/
inductive CallOutcome where
  | success (igMediaId : Option String)
  | httpError (retryable : Bool) (errorCategory : String)
      (retryAfterSeconds : Option Int) (errorMsg : String)
  | timeout
  | raised (errorMsg : String)
  deriving Repr, DecidableEq

/-- Effect trace of `QueueWorker._on_success`: mark completed, settle
publish-post state, release the lock, audit. -/
def onSuccessEffects (job : Job) : List Effect :=
  [.setJobStatus job.job_id "completed"]
    ++ settlePublishEffects job "published"
    ++ [.releaseLock job.job_id, .auditLog "outbound_job_completed" "execute"]

/-- Effect trace of `QueueWorker._execute_job` (`queue_worker.py:127-210`).
`lockAcquired` is the result of `acquire_execution_lock`; `readStatus` feeds
the idempotency guard; `outcome` is what the backend call did.  The three
exception handlers forward to `_on_failure` exactly as the source does
(timeout → retryable transient with a 30s hint; other exceptions → retryable
unknown with no hint). -/
def executeJobEffects (job : Job) (lockAcquired : Bool)
    (readStatus : Option (Option String)) (outcome : CallOutcome) : List Effect :=
  if !lockAcquired then []
  else if !isSafeToExecute job readStatus then [.releaseLock job.job_id]
  else
    [.setJobStatus job.job_id "processing", .backendPost job.endpoint]
      ++ match outcome with
         | .success _ => onSuccessEffects job
         | .httpError retryable category retryAfter msg =>
           onFailureEffects job msg retryable category retryAfter
         | .timeout =>
           onFailureEffects job "backend_timeout" true "transient" (some 30)
         | .raised msg =>
           onFailureEffects job msg true "unknown" none

/-! ## Webhook pipeline (`routes/webhook_base.py`) -/

/-- An incoming webhook POST as seen by `verify_instagram_signature`:
the raw body bytes (modelled as a string) and the `X-Hub-Signature-256`
header, where `""` models a missing header (the code reads it with
`request.headers.get(..., "")` and treats the empty string as missing). -/
structure WebhookRequest where
  signatureHeader : String
  body : String
  deriving Repr, DecidableEq

/-- Embeds `signature_header.startswith("sha256=")`, over the header's character
list. -/
def sigHasSha256Tag (h : String) : Bool :=
  "sha256=".toList.isPrefixOf h.toList

/-- Embeds `signature_header[7:]` — strip the `sha256=` tag. -/
def sigStripSha256 (h : String) : String :=
  (h.toList.drop 7).asString

/-- Embeds `verify_instagram_signature` (`webhook_base.py:53-80`).
`mac secret body` models `hmac.new(secret, body, sha256).hexdigest()`; the
function is parametric in it because the claims are about the comparison and
control flow, not SHA-256 itself.  `hmac.compare_digest` is modelled by
string equality (its functional behaviour).  An unset `INSTAGRAM_APP_SECRET`
(empty string) skips verification (dev mode). -/
def verifyInstagramSignature (mac : String → String → String)
    (secret : String) (req : WebhookRequest) : Bool :=
  if secret == "" then true
  else if req.signatureHeader == "" then false
  else if !sigHasSha256Tag req.signatureHeader then false
  else mac secret req.body == sigStripSha256 req.signatureHeader

/-- Observable steps of `webhook_pipeline`, in program order.  `parsePayload`
records that `config.parse_payload` ran; `storeWrite` is a
`SupabaseService.log_decision` audit write; `contextFetch` is
`config.fetch_context`; `llmAnalyze` is the `_analyze_message` call;
`outboundReply` is `config.execute_reply` (the webhook's outbound side
effect). -/
inductive PipeEffect where
  | parsePayload
  | storeWrite (eventType action : String)
  | contextFetch
  | llmAnalyze
  | outboundReply
  deriving Repr, DecidableEq

/-- The fields of the analysis dict that `webhook_pipeline` branches on. -/
structure AnalysisOutcome where
  errorTag : Option String
  needsHuman : Bool
  deriving Repr, DecidableEq

/-- Hook outcomes of one `webhook_pipeline` run (the data that in Python is
produced by the per-webhook `WebhookConfig` hooks and the LLM):
`parseOk` — `config.parse_payload` did not raise;
`hardRuleHit` — `config.hard_rules` is present and returned a short-circuit
response, carrying its `_action` label;
`preCheck` — `none` when `config.pre_execute_check` is absent,
`some none` when present and it returned `None` (proceed to execute),
`some (some r)` when present and it returned a result `r` (skip execution). -/
structure PipelineRun where
  parseOk : Bool
  hardRuleHit : Option String
  analysis : AnalysisOutcome
  preCheck : Option (Option String)
  eventType : String
  deriving Repr, DecidableEq

/-- Analysis-failure guard of `webhook_pipeline` (step 5): an `error` key
that is not `json_parse_failed` aborts with 503. -/
def analysisFailed (a : AnalysisOutcome) : Bool :=
  match a.errorTag with
  | some tag => tag != "json_parse_failed"
  | none => false

/-- Execution step (6-7) of `webhook_pipeline`: escalation produces no
outbound call; a present pre-execute check that returns a result blocks the
reply; otherwise `config.execute_reply` runs. -/
def executePhase (run : PipelineRun) : List PipeEffect :=
  if run.analysis.needsHuman then []
  else
    match run.preCheck with
    | some (some _) => []
    | some none => [.outboundReply]
    | none => [.outboundReply]

/-- Audit action chosen at step 8 of `webhook_pipeline`. -/
def pipelineAction (run : PipelineRun) : String :=
  if run.analysis.needsHuman then "escalated"
  else
    match run.preCheck with
    | some (some _) => "processed_no_reply"
    | _ => "auto_replied"

/-- Embeds `webhook_pipeline` (`webhook_base.py:88-235`): HTTP status of the
response together with the trace of observable effects.  Statuses: 401
invalid signature, 400 parse error, 503 analysis failure, 200 otherwise. -/
def webhookPipeline (mac : String → String → String) (secret : String)
    (req : WebhookRequest) (run : PipelineRun) : Nat × List PipeEffect :=
  if !verifyInstagramSignature mac secret req then (401, [])
  else if !run.parseOk then (400, [.parsePayload])
  else
    match run.hardRuleHit with
    | some action =>
      (200, [.parsePayload, .storeWrite run.eventType action])
    | none =>
      if analysisFailed run.analysis then
        (503, [.parsePayload, .contextFetch, .llmAnalyze])
      else
        (200,
          [.parsePayload, .contextFetch, .llmAnalyze]
            ++ executePhase run
            ++ [.storeWrite run.eventType (pipelineAction run)])

/-! ## Reply shims (`tools/automation_tools.py`) -/

/-- Embeds `BACKEND_REPLY_COMMENT_ENDPOINT` (`config.py:121`), relative to
`BACKEND_API_URL`. -/
def BACKEND_REPLY_COMMENT_ENDPOINT : String := "/api/instagram/reply-comment"

/-- Embeds `MAX_COMMENT_REPLY_LENGTH`.  The constant is imported from `config` but
its assignment is not part of the sources under review; the tool schema and
description in `automation_tools.py` fix it at 2200 characters. -/
def MAX_COMMENT_REPLY_LENGTH : Nat := 2200

/-- What `_call_backend_reply_comment` observed: the backend JSON reply `id`
on success, or one of the three handled failure shapes. -/
inductive ShimBackendOutcome where
  | ok (igId : String)
  | timeout
  | httpError (statusCode : Nat)
  | raised (typeName msg : String)
  deriving Repr, DecidableEq

/-- Result dict of `_reply_to_comment`. -/
structure ShimResult where
  success : Bool
  errorTag : Option String
  executionId : Option String
  deriving Repr, DecidableEq

/-- Outbound effects a shim can issue: a direct synchronous POST to the
backend proxy, or an enqueue onto the outbound queue. -/
inductive ShimEffect where
  | backendPost (endpoint : String)
  | enqueueJob (actionType : String)
  deriving Repr, DecidableEq

/-- Embeds `_reply_to_comment` (`automation_tools.py:188-226`): validate the reply
length, then call the backend proxy directly over HTTP
(`_call_backend_reply_comment`, an `httpx.Client.post`); map the outcome to
the result dict.  The tenacity decorator re-attempts the POST once on an
exception; the trace records the attempt as a single `backendPost` effect
(a second attempt would only repeat the same effect). -/
def replyToComment (reply_text : String)
    (outcome : ShimBackendOutcome) : ShimResult × List ShimEffect :=
  if reply_text.length > MAX_COMMENT_REPLY_LENGTH then
    ({ success := false, errorTag := some "reply_too_long", executionId := none }, [])
  else
    let effects := [ShimEffect.backendPost BACKEND_REPLY_COMMENT_ENDPOINT]
    match outcome with
    | .ok igId =>
      ({ success := true, errorTag := none, executionId := some igId }, effects)
    | .timeout =>
      ({ success := false, errorTag := some "timeout", executionId := none }, effects)
    | .httpError _ =>
      ({ success := false, errorTag := some "backend_error", executionId := none }, effects)
    | .raised typeName _ =>
      ({ success := false, errorTag := some typeName, executionId := none }, effects)

/-- Embeds `BACKEND_REPLY_DM_ENDPOINT` (`config.py:122`), relative to
`BACKEND_API_URL`. -/
def BACKEND_REPLY_DM_ENDPOINT : String := "/api/instagram/reply-dm"

/-- Embeds `_reply_to_dm` (`automation_tools.py:230-281`): validate the 150-char DM
limit, then call the backend proxy directly over HTTP
(`_call_backend_reply_dm`, an `httpx.Client.post`). -/
def replyToDm (message_text : String)
    (outcome : ShimBackendOutcome) : ShimResult × List ShimEffect :=
  if message_text.length > 150 then
    ({ success := false, errorTag := some "message_too_long", executionId := none }, [])
  else
    let effects := [ShimEffect.backendPost BACKEND_REPLY_DM_ENDPOINT]
    match outcome with
    | .ok igId =>
      ({ success := true, errorTag := none, executionId := some igId }, effects)
    | .timeout =>
      ({ success := false, errorTag := some "timeout", executionId := none }, effects)
    | .httpError _ =>
      ({ success := false, errorTag := some "backend_error", executionId := none }, effects)
    | .raised typeName _ =>
      ({ success := false, errorTag := some typeName, executionId := none }, effects)

/-! ## Engagement monitor (`scheduler/engagement_monitor.py`) -/

/-- The analysis fields `_process_comment` routes on. -/
structure MonitorAnalysis where
  needsHuman : Bool
  suggestedReply : String
  confidence : ℚ
  deriving Repr, DecidableEq

/-- The comment fields the per-comment pipeline uses. -/
structure MonitorComment where
  id : String
  instagramCommentId : String
  deriving Repr, DecidableEq

/-- Observable effects of the per-comment pipeline. -/
inductive MonitorEffect where
  | markProcessedStore (commentId : String) (wasReplied : Bool)
  | markDedup (igCommentId : String)
  | replyCall (igCommentId : String)
  | logDecision (eventType action : String)
  deriving Repr, DecidableEq

/-- Embeds `_handle_escalation` (`engagement_monitor.py:228-259`). -/
def handleEscalation (c : MonitorComment) : String × List MonitorEffect :=
  ("escalated",
    [.markProcessedStore c.id false, .markDedup c.instagramCommentId,
     .logDecision "engagement_monitor_escalation" "escalated"])

/-- Embeds `_handle_auto_reply` (`engagement_monitor.py:262-319`).  `replySuccess`
is the `success` field of the `_reply_to_comment` result. -/
def handleAutoReply (c : MonitorComment) (replySuccess : Bool) :
    String × List MonitorEffect :=
  let action := if replySuccess then "auto_replied" else "reply_failed"
  ((if replySuccess then "replied" else "reply_failed"),
    [.replyCall c.instagramCommentId,
     .markProcessedStore c.id replySuccess, .markDedup c.instagramCommentId,
     .logDecision "comment_execution_outcome" (if replySuccess then "success" else "failed"),
     .logDecision "engagement_monitor_comment_processed" action])

/-- Embeds `_handle_skip` (`engagement_monitor.py:322-349`). -/
def handleSkip (c : MonitorComment) : String × List MonitorEffect :=
  ("skipped",
    [.markProcessedStore c.id false, .markDedup c.instagramCommentId,
     .logDecision "engagement_monitor_comment_processed" "skipped"])

/-- Embeds `_log_comment_error` (`engagement_monitor.py:390-411`): the error path
still marks the comment processed in both layers. -/
def logCommentError (c : MonitorComment) : List MonitorEffect :=
  [.markProcessedStore c.id false, .markDedup c.instagramCommentId,
   .logDecision "engagement_monitor_comment_error" "error"]

/-- Routing of `_process_comment` (`engagement_monitor.py:185-222`):
escalate when `needs_human`; auto-reply when a non-empty suggested reply
meets the confidence threshold and the feature flag is on; otherwise skip. -/
def processComment (c : MonitorComment) (analysis : MonitorAnalysis)
    (confidenceThreshold : ℚ) (autoReplyEnabled : Bool)
    (replySuccess : Bool) : String × List MonitorEffect :=
  if analysis.needsHuman then handleEscalation c
  else if analysis.suggestedReply != ""
      && decide (analysis.confidence ≥ confidenceThreshold)
      && autoReplyEnabled then
    handleAutoReply c replySuccess
  else handleSkip c

/-- Embeds `_process_comment_safe` (`engagement_monitor.py:171-182`): `raised`
models an exception escaping `_process_comment` (context fetch, LLM call or
routing); the handler logs the error and still marks the comment processed. -/
def processCommentSafe (c : MonitorComment) (analysis : MonitorAnalysis)
    (confidenceThreshold : ℚ) (autoReplyEnabled : Bool)
    (replySuccess : Bool) (raised : Bool) : String × List MonitorEffect :=
  if raised then ("error", logCommentError c)
  else processComment c analysis confidenceThreshold autoReplyEnabled replySuccess

/-! ## Weekly attribution learning (`scheduler/weekly_attribution_learning.py`) -/

/-- A per-model map over the four attribution models. -/
structure Weights where
  last_touch : ℚ
  first_touch : ℚ
  linear : ℚ
  time_decay : ℚ
  deriving Repr, DecidableEq

/-- Sum over the four models. -/
def Weights.total (w : Weights) : ℚ :=
  w.last_touch + w.first_touch + w.linear + w.time_decay

/-- Embeds `_DEFAULT_WEIGHTS` (`weekly_attribution_learning.py:32-37`). -/
def defaultWeights : Weights :=
  { last_touch := 2/5, first_touch := 1/5, linear := 1/5, time_decay := 1/5 }

/-- Python's `round(v, 4)`, modelled over ℚ.  Python rounds ties to even
while `round` on ℚ rounds ties up; all values in the theorems below are at
least `1/20000` away from a tie, where the two agree. -/
def roundTo4 (x : ℚ) : ℚ := (round (x * 10000) : ℤ) / 10000

/-- The 70/30 blend of `_adjust_weights` for one model, against the total of
the per-model averages. -/
def blendOne (totalAvg avg old : ℚ) : ℚ := 7/10 * (avg / totalAvg) + 3/10 * old

/-- The `blended` dict of `_adjust_weights`. -/
def blendedWeights (current averages : Weights) : Weights :=
  let t := averages.total
  { last_touch := blendOne t averages.last_touch current.last_touch
    first_touch := blendOne t averages.first_touch current.first_touch
    linear := blendOne t averages.linear current.linear
    time_decay := blendOne t averages.time_decay current.time_decay }

/-- The normalized (pre-rounding) weights of `_adjust_weights`. -/
def normalizedWeights (current averages : Weights) : Weights :=
  let b := blendedWeights current averages
  let t := b.total
  { last_touch := b.last_touch / t, first_touch := b.first_touch / t
    linear := b.linear / t, time_decay := b.time_decay / t }

/-- Embeds `_adjust_weights` (`weekly_attribution_learning.py:234-264`): keep the
current weights when the model averages do not have a positive sum; otherwise
blend 70% new proportional + 30% old, then normalize — each normalized value
passing through `round(v / total, 4)` — provided the blended total is
positive. -/
def adjustWeights (current averages : Weights) : Weights :=
  if averages.total ≤ 0 then current
  else
    let b := blendedWeights current averages
    if b.total > 0 then
      let n := normalizedWeights current averages
      { last_touch := roundTo4 n.last_touch, first_touch := roundTo4 n.first_touch
        linear := roundTo4 n.linear, time_decay := roundTo4 n.time_decay }
    else b

/-! ## LLM response parsing (`services/llm_service.py`)

`LLMService._parse_json_response` tries `json.loads` on the stripped text,
then on a fenced code block found by
`re.search(r"` ``` `(?:json)?\s*(\{.*?\})\s*` ``` `", cleaned, re.DOTALL)`,
then on the first match of `re.search(r"\{[^{}]*(?:\{[^{}]*\}[^{}]*)*\}", ...)`;
when everything fails it returns the `json_parse_failed` sentinel carrying
the first 500 characters of the stripped text.  `json.loads` is modelled by
a fuel-bounded JSON parser over the grammar the Python `json` module accepts
(including `NaN` / `Infinity` / `-Infinity`); numbers are kept as lexemes
and object fields as ordered pairs, which is faithful for parse
success/failure and for the concrete values compared below.  The two regex
searches are deterministic for their patterns (every quantified class is
disjoint from what follows it), so they are modelled by direct scans with the
same leftmost-match semantics. -/

/-- JSON documents as the parser produces them. -/
inductive Json where
  | null
  | bool (b : Bool)
  | num (lexeme : String)
  | str (s : String)
  | arr (elems : List Json)
  | obj (fields : List (String × Json))

/-- Opening brace character, kept out of literals. -/
def lbrace : Char := Char.ofNat 123

/-- Closing brace character, kept out of literals. -/
def rbrace : Char := Char.ofNat 125

/-- Backtick character, kept out of literals. -/
def backtickChar : Char := Char.ofNat 96

/-- The whitespace set `json.decoder` skips between tokens: space, tab,
newline, carriage return. -/
def jsonWs (c : Char) : Bool :=
  [32, 9, 10, 13].contains c.toNat

/-- Skip JSON inter-token whitespace. -/
def skipJsonWs : List Char → List Char
  | [] => []
  | c :: cs => if jsonWs c then skipJsonWs cs else c :: cs

/-- Hexadecimal digit value, for `\uXXXX` escapes. -/
def hexDigitVal (c : Char) : Option Nat :=
  let n := c.toNat
  if 48 ≤ n && n ≤ 57 then some (n - 48)
  else if 97 ≤ n && n ≤ 102 then some (n - 87)
  else if 65 ≤ n && n ≤ 70 then some (n - 55)
  else none

/-- Body of a JSON string after the opening quote.  Escapes follow
`json.decoder`; raw control characters are rejected (strict mode).  `\uXXXX`
escapes outside the surrogate range are decoded; surrogates are rejected
(Python accepts lone surrogates — no claim below depends on them). -/
def parseJStringF : Nat → List Char → List Char → Option (String × List Char)
  | 0, _, _ => none
  | _ + 1, _, [] => none
  | fuel + 1, acc, c :: rest =>
    if c == '"' then some ((acc.reverse).asString, rest)
    else if c == '\\' then
      match rest with
      | [] => none
      | e :: rest2 =>
        if e == '"' then parseJStringF fuel ('"' :: acc) rest2
        else if e == '\\' then parseJStringF fuel ('\\' :: acc) rest2
        else if e == '/' then parseJStringF fuel ('/' :: acc) rest2
        else if e == 'b' then parseJStringF fuel (Char.ofNat 8 :: acc) rest2
        else if e == 'f' then parseJStringF fuel (Char.ofNat 12 :: acc) rest2
        else if e == 'n' then parseJStringF fuel ('\n' :: acc) rest2
        else if e == 'r' then parseJStringF fuel ('\r' :: acc) rest2
        else if e == 't' then parseJStringF fuel ('\t' :: acc) rest2
        else if e == 'u' then
          match rest2 with
          | h1 :: h2 :: h3 :: h4 :: rest3 =>
            match hexDigitVal h1, hexDigitVal h2, hexDigitVal h3, hexDigitVal h4 with
            | some a, some b, some c3, some d =>
              let n := ((a * 16 + b) * 16 + c3) * 16 + d
              if 0xd800 ≤ n && n ≤ 0xdfff then none
              else parseJStringF fuel (Char.ofNat n :: acc) rest3
            | _, _, _, _ => none
          | _ => none
        else none
    else if c.toNat < 32 then none
    else parseJStringF fuel (c :: acc) rest

/-- Longest digit run at the head of the input. -/
def spanDigits (cs : List Char) : List Char × List Char :=
  cs.span (fun c => c.isDigit)

/-- Optional fraction part `(\.\d+)?` of the JSON number grammar. -/
def parseFrac (cs : List Char) : List Char × List Char :=
  match cs with
  | '.' :: d :: rest =>
    if d.isDigit then
      let (ds, rest2) := spanDigits (d :: rest)
      ('.' :: ds, rest2)
    else ([], cs)
  | _ => ([], cs)

/-- Optional exponent part `([eE][-+]?\d+)?` of the JSON number grammar. -/
def parseExp (cs : List Char) : List Char × List Char :=
  match cs with
  | e :: rest =>
    if e == 'e' || e == 'E' then
      match rest with
      | s :: d :: rest2 =>
        if (s == '+' || s == '-') && d.isDigit then
          let (ds, rest3) := spanDigits (d :: rest2)
          (e :: s :: ds, rest3)
        else if s.isDigit then
          let (ds, rest3) := spanDigits (s :: d :: rest2)
          (e :: ds, rest3)
        else ([], e :: rest)
      | [s] =>
        if s.isDigit then (e :: [s], []) else ([], e :: rest)
      | [] => ([], e :: rest)
    else ([], cs)
  | [] => ([], cs)

/-- JSON number lexeme `-?(0|[1-9]\d*)(\.\d+)?([eE][-+]?\d+)?`. -/
def parseNumberLex (cs : List Char) : Option (String × List Char) :=
  let (sign, cs1) : List Char × List Char :=
    match cs with
    | '-' :: rest => (['-'], rest)
    | _ => ([], cs)
  match cs1 with
  | c :: rest =>
    if c == '0' then
      let (fr, r2) := parseFrac rest
      let (ex, r3) := parseExp r2
      some ((sign ++ ['0'] ++ fr ++ ex).asString, r3)
    else if c.isDigit then
      let (ds, r1) := spanDigits (c :: rest)
      let (fr, r2) := parseFrac r1
      let (ex, r3) := parseExp r2
      some ((sign ++ ds ++ fr ++ ex).asString, r3)
    else none
  | [] => none

/-- Strip a literal keyword from the head of the input. -/
def stripLit (lit : String) (cs : List Char) : Option (List Char) :=
  if lit.toList.isPrefixOf cs then some (cs.drop lit.length) else none

mutual

/-- One JSON value, leading whitespace allowed (`py_make_scanner` order:
string, object, array, then the literals and numbers). -/
def parseValueF : Nat → List Char → Option (Json × List Char)
  | 0, _ => none
  | fuel + 1, cs =>
    match skipJsonWs cs with
    | [] => none
    | c :: rest =>
      if c == '"' then
        (parseJStringF (fuel + 1) [] rest).map (fun p => (Json.str p.1, p.2))
      else if c == lbrace then
        (parseMembersF fuel rest).map (fun p => (Json.obj p.1, p.2))
      else if c == '[' then
        (parseElemsF fuel rest).map (fun p => (Json.arr p.1, p.2))
      else
        match stripLit "true" (c :: rest) with
        | some r => some (Json.bool true, r)
        | none =>
        match stripLit "false" (c :: rest) with
        | some r => some (Json.bool false, r)
        | none =>
        match stripLit "null" (c :: rest) with
        | some r => some (Json.null, r)
        | none =>
        match stripLit "NaN" (c :: rest) with
        | some r => some (Json.num "NaN", r)
        | none =>
        match stripLit "Infinity" (c :: rest) with
        | some r => some (Json.num "Infinity", r)
        | none =>
        match stripLit "-Infinity" (c :: rest) with
        | some r => some (Json.num "-Infinity", r)
        | none =>
          (parseNumberLex (c :: rest)).map (fun p => (Json.num p.1, p.2))

/-- Object body after the opening brace. -/
def parseMembersF : Nat → List Char → Option (List (String × Json) × List Char)
  | 0, _ => none
  | fuel + 1, cs =>
    match skipJsonWs cs with
    | [] => none
    | c :: rest =>
      if c == rbrace then some ([], rest)
      else parseMemberListF fuel (c :: rest)

/-- Non-empty member list: `"key" : value` pairs separated by commas, closed
by the closing brace.  Python's dict keeps the last duplicate key; the field
list keeps all pairs in order, which agrees on the inputs compared below. -/
def parseMemberListF : Nat → List Char → Option (List (String × Json) × List Char)
  | 0, _ => none
  | fuel + 1, cs =>
    match skipJsonWs cs with
    | [] => none
    | c :: rest =>
      if c == '"' then
        match parseJStringF (fuel + 1) [] rest with
        | none => none
        | some (key, r1) =>
          match skipJsonWs r1 with
          | ':' :: r2 =>
            match parseValueF fuel r2 with
            | none => none
            | some (v, r3) =>
              match skipJsonWs r3 with
              | ',' :: r4 =>
                (parseMemberListF fuel r4).map (fun p => ((key, v) :: p.1, p.2))
              | d :: r4 =>
                if d == rbrace then some ([(key, v)], r4) else none
              | [] => none
          | _ => none
      else none

/-- Array body after the opening bracket. -/
def parseElemsF : Nat → List Char → Option (List Json × List Char)
  | 0, _ => none
  | fuel + 1, cs =>
    match skipJsonWs cs with
    | [] => none
    | c :: rest =>
      if c == ']' then some ([], rest)
      else parseElemListF fuel (c :: rest)

/-- Non-empty array element list. -/
def parseElemListF : Nat → List Char → Option (List Json × List Char)
  | 0, _ => none
  | fuel + 1, cs =>
    match parseValueF fuel cs with
    | none => none
    | some (v, r1) =>
      match skipJsonWs r1 with
      | ',' :: r2 => (parseElemListF fuel r2).map (fun p => (v :: p.1, p.2))
      | ']' :: r2 => some ([v], r2)
      | _ => none

end

/-- Embeds `json.loads`: one JSON document with only whitespace around it.  Every
recursive call of the parser consumes at least one input character first, so
`2 * length + 8` fuel never runs out on the way to an answer. -/
def loads (s : String) : Option Json :=
  match parseValueF (2 * s.length + 8) s.toList with
  | some (j, rest) => if (skipJsonWs rest).isEmpty then some j else none
  | none => none

/-- The whitespace class `\s` of the fence regex (ASCII part). -/
def regexWs (c : Char) : Bool :=
  [32, 9, 10, 13, 12, 11].contains c.toNat

/-- Skip regex whitespace. -/
def skipRegexWs : List Char → List Char
  | [] => []
  | c :: cs => if regexWs c then skipRegexWs cs else c :: cs

/-- Three backticks. -/
def ticks3 : List Char := [backtickChar, backtickChar, backtickChar]

/-- Lazy body of the fence group `(\{.*?\})\s*` followed by the closing
ticks: the group ends at the first closing brace that is followed by
whitespace and three backticks; any other character (braces included) is
swallowed by the dot. -/
def fenceCloseF : Nat → List Char → List Char → Option (List Char)
  | 0, _, _ => none
  | _ + 1, _, [] => none
  | fuel + 1, acc, c :: rest =>
    if c == rbrace && ticks3.isPrefixOf (skipRegexWs rest) then
      some (acc ++ [c])
    else fenceCloseF fuel (acc ++ [c]) rest

/-- Try the fence pattern at one position: three backticks, an optional
literal `json` tag, whitespace, then the lazily-closed brace group. -/
def fenceTryAt (cs : List Char) : Option (List Char) :=
  if ticks3.isPrefixOf cs then
    let cs1 := cs.drop 3
    let cs2 := if "json".toList.isPrefixOf cs1 then cs1.drop 4 else cs1
    match skipRegexWs cs2 with
    | c :: body =>
      if c == lbrace then fenceCloseF (body.length + 2) [c] body else none
    | [] => none
  else none

/-- Embeds `re.search` for the fence pattern: leftmost position where it matches. -/
def fenceSearchF : Nat → List Char → Option (List Char)
  | 0, _ => none
  | fuel + 1, cs =>
    match fenceTryAt cs with
    | some m => some m
    | none =>
      match cs with
      | [] => none
      | _ :: rest => fenceSearchF fuel rest

/-- The fenced-code-block extraction of `_parse_json_response`. -/
def fenceExtract (s : String) : Option String :=
  (fenceSearchF (s.length + 2) s.toList).map List.asString

/-- Matching automaton of `\{[^{}]*(?:\{[^{}]*\}[^{}]*)*\}` after the opening
brace: `inDepth2` is true inside an inner `\{[^{}]*\}` group.  A second
nested opening brace has no matching alternative, so the pattern fails at
this start position. -/
def braceScan (inDepth2 : Bool) (acc : List Char) : List Char → Option (List Char)
  | [] => none
  | c :: rest =>
    if c == lbrace then
      if inDepth2 then none else braceScan true (acc ++ [c]) rest
    else if c == rbrace then
      if inDepth2 then braceScan false (acc ++ [c]) rest else some (acc ++ [c])
    else braceScan inDepth2 (acc ++ [c]) rest

/-- Try the brace pattern at one position. -/
def braceTryAt (cs : List Char) : Option (List Char) :=
  match cs with
  | c :: rest => if c == lbrace then braceScan false [c] rest else none
  | [] => none

/-- Embeds `re.search` for the brace pattern: leftmost position where it matches. -/
def braceSearchF : Nat → List Char → Option (List Char)
  | 0, _ => none
  | fuel + 1, cs =>
    match braceTryAt cs with
    | some m => some m
    | none =>
      match cs with
      | [] => none
      | _ :: rest => braceSearchF fuel rest

/-- The first-brace-block extraction of `_parse_json_response` (stage 3). -/
def braceExtract (s : String) : Option String :=
  (braceSearchF (s.length + 2) s.toList).map List.asString

/-- Modelled from the spec: "the first balanced brace expression" — at a
given opening brace, follow the nesting depth to the matching close,
whatever the depth. -/
def balancedScan (depth : Nat) (acc : List Char) : List Char → Option (List Char)
  | [] => none
  | c :: rest =>
    if c == lbrace then balancedScan (depth + 1) (acc ++ [c]) rest
    else if c == rbrace then
      if depth ≤ 1 then some (acc ++ [c])
      else balancedScan (depth - 1) (acc ++ [c]) rest
    else balancedScan depth (acc ++ [c]) rest

/-- Modelled from the spec: search for the first position opening a balanced
brace expression. -/
def balancedSearchF : Nat → List Char → Option (List Char)
  | 0, _ => none
  | fuel + 1, cs =>
    match cs with
    | [] => none
    | c :: rest =>
      if c == lbrace then
        match balancedScan 1 [c] rest with
        | some m => some m
        | none => balancedSearchF fuel rest
      else balancedSearchF fuel rest

/-- Modelled from the spec: "the first balanced brace expression" of a
string. -/
def firstBalancedBrace (s : String) : Option String :=
  (balancedSearchF (s.length + 2) s.toList).map List.asString

/-- The whitespace set of Python's `str.strip()` (ASCII part: space, tab,
newline, carriage return, form feed, vertical tab). -/
def pyStripWs (c : Char) : Bool :=
  [32, 9, 10, 13, 12, 11].contains c.toNat

/-- Python's `raw.strip()`. -/
def stripStr (s : String) : String :=
  ((((s.toList.dropWhile pyStripWs).reverse).dropWhile pyStripWs).reverse).asString

/-- Python's `cleaned[:500]` (code-point slicing). -/
def truncate500 (s : String) : String :=
  (s.toList.take 500).asString

/-- The `json_parse_failed` sentinel with the stripped text truncated to its
first 500 characters. -/
def jsonParseFailedSentinel (cleaned : String) : Json :=
  Json.obj [("error", Json.str "json_parse_failed"),
            ("raw_response", Json.str (truncate500 cleaned))]

/-- Stage 3 plus the sentinel fall-through of `_parse_json_response`. -/
def braceStage (cleaned : String) : Json :=
  match braceExtract cleaned with
  | some sub =>
    match loads sub with
    | some j => j
    | none => jsonParseFailedSentinel cleaned
  | none => jsonParseFailedSentinel cleaned

/-- Embeds `LLMService._parse_json_response` (`llm_service.py:42-76`): strip, try a
direct parse, try the fenced block, try the first brace block, fall back to
the sentinel. -/
def parseJsonResponse (raw : String) : Json :=
  match loads (stripStr raw) with
  | some j => j
  | none =>
    match fenceExtract (stripStr raw) with
    | some sub =>
      match loads sub with
      | some j => j
      | none => braceStage (stripStr raw)
    | none => braceStage (stripStr raw)

/-- Modelled from the spec: the parser as the specification words it, with
stage 3 reading "the first balanced brace expression" (the code and this
function are compared on a concrete input below). -/
def specBraceStage (cleaned : String) : Json :=
  match firstBalancedBrace cleaned with
  | some sub =>
    match loads sub with
    | some j => j
    | none => jsonParseFailedSentinel cleaned
  | none => jsonParseFailedSentinel cleaned

/-- Modelled from the spec: three stages with the spec's stage 3. -/
def specParseJsonResponse (raw : String) : Json :=
  match loads (stripStr raw) with
  | some j => j
  | none =>
    match fenceExtract (stripStr raw) with
    | some sub =>
      match loads sub with
      | some j => j
      | none => specBraceStage (stripStr raw)
    | none => specBraceStage (stripStr raw)

/-! ## Theorems -/

/-- C10: `acquire_execution_lock` permits execution whenever Redis is
unavailable or the `SET NX` raises, and refuses only when Redis successfully
reports that the per-job lock is already held — so under cache loss the
mutex never blocks a worker and provides no double-execution protection. -/
theorem C10_acquire_lock_fail_open (avail : Bool) (outcome : RedisSetOutcome) :
    (avail = false → acquireExecutionLock avail outcome = true) ∧
    (acquireExecutionLock avail .raised = true) ∧
    (acquireExecutionLock avail outcome = false ↔ avail = true ∧ outcome = .ok false) := by
  cases avail <;> cases outcome <;> simp [acquireExecutionLock]

/-- Witness for C10 at a concrete input: Redis down, lock would be
contended, execution still permitted. -/
theorem C10_acquire_lock_fail_open_witness :
    acquireExecutionLock false (.ok false) = true :=
  (C10_acquire_lock_fail_open false (.ok false)).1 rfl

/-- C2: a non-retryable failure dead-letters immediately with reason
`non_retryable:{category}:{msg}`; a retryable failure dead-letters exactly
when the incremented retry count exceeds `max_retries`, with reason
`max_retries_exceeded:{category}:{msg}`, and is otherwise scheduled for a
retry; with `max_retries = 5` the dead-letter happens on the 6th failure
(incremented count 6), not the 5th. -/
theorem C2_on_failure_dlq_policy (job : Job) (error errorCategory : String)
    (retryAfterSeconds : Option Int) :
    (onFailureDecision job error false errorCategory retryAfterSeconds =
      .toDlq ("non_retryable:" ++ errorCategory ++ ":" ++ error)) ∧
    ((∃ r, onFailureDecision job error true errorCategory retryAfterSeconds = .toDlq r) ↔
      job.max_retries < job.retry_count + 1) ∧
    (job.max_retries < job.retry_count + 1 →
      onFailureDecision job error true errorCategory retryAfterSeconds =
        .toDlq ("max_retries_exceeded:" ++ errorCategory ++ ":" ++ error)) ∧
    (job.retry_count + 1 ≤ job.max_retries →
      ∃ d, onFailureDecision job error true errorCategory retryAfterSeconds =
        .toRetry d (job.retry_count + 1)) ∧
    (job.max_retries = 5 →
      ((∃ r, onFailureDecision job error true errorCategory retryAfterSeconds = .toDlq r) ↔
        6 ≤ job.retry_count + 1)) := by
  by_cases h : job.retry_count + 1 ≤ job.max_retries <;>
    simp [onFailureDecision, h] <;> omega

/-- Witness for C2 at concrete inputs: with `max_retries = 5`, the 5th
failure (count 4 before it) retries and the 6th (count 5 before it)
dead-letters. -/
theorem C2_on_failure_dlq_policy_witness :
    (∃ d, onFailureDecision
        { job_id := "j", action_type := "reply_comment", priority := "high"
          endpoint := "/api/instagram/reply-comment"
          payloadScheduledPostId := none, business_account_id := "b"
          idempotency_key := "k", source := "webhook", created_at := 0
          retry_count := 4, max_retries := 5 }
        "boom" true "transient" none = .toRetry d 5) ∧
    onFailureDecision
        { job_id := "j", action_type := "reply_comment", priority := "high"
          endpoint := "/api/instagram/reply-comment"
          payloadScheduledPostId := none, business_account_id := "b"
          idempotency_key := "k", source := "webhook", created_at := 0
          retry_count := 5, max_retries := 5 }
        "boom" true "transient" none =
      .toDlq ("max_retries_exceeded:" ++ "transient" ++ ":" ++ "boom") :=
  ⟨(C2_on_failure_dlq_policy _ "boom" "transient" none).2.2.2.1 (by decide),
   (C2_on_failure_dlq_policy _ "boom" "transient" none).2.2.1 (by decide)⟩

/-- C3: for a retryable failure that schedules a retry, an explicit
`retry_after_seconds` hint is used verbatim; otherwise a `rate_limit` error
takes `max(table delay, 300)` and every other category takes the table delay,
where the table is 60/120/240/480/960 indexed by the job's retry count and
clamped to 960 past its end. -/
theorem C3_retry_delay_selection (job : Job) (error errorCategory : String) :
    (backoffDelay 1 = 60 ∧ backoffDelay 2 = 120 ∧ backoffDelay 3 = 240 ∧
      backoffDelay 4 = 480 ∧ backoffDelay 5 = 960) ∧
    (∀ n, 4 ≤ n → backoffDelay (n + 1) = 960) ∧
    (job.retry_count + 1 ≤ job.max_retries →
      (∀ v, onFailureDecision job error true errorCategory (some v) =
          .toRetry v (job.retry_count + 1)) ∧
      (errorCategory = "rate_limit" →
        onFailureDecision job error true errorCategory none =
          .toRetry (max (backoffDelay (job.retry_count + 1)) 300) (job.retry_count + 1)) ∧
      (errorCategory ≠ "rate_limit" →
        onFailureDecision job error true errorCategory none =
          .toRetry (backoffDelay (job.retry_count + 1)) (job.retry_count + 1))) := by
  refine ⟨by simp [backoffDelay, RETRY_DELAYS], ?_, ?_⟩
  · intro n hn
    have hmin : min (n + 1 - 1) (RETRY_DELAYS.length - 1) = 4 := by
      simp [RETRY_DELAYS]
      omega
    unfold backoffDelay
    rw [hmin]
    rfl
  · intro h
    refine ⟨fun v => by simp [onFailureDecision, h], ?_, ?_⟩
    · intro hc
      simp [onFailureDecision, h, hc, RATE_LIMIT_DELAY_FLOOR]
    · intro hc
      simp [onFailureDecision, h, hc]

/-- Witness for C3 at concrete inputs: a 2nd-failure rate-limit error with no
hint gets `max(120, 300) = 300`. -/
theorem C3_retry_delay_selection_witness :
    onFailureDecision
        { job_id := "j", action_type := "reply_dm", priority := "high"
          endpoint := "/api/instagram/reply-dm"
          payloadScheduledPostId := none, business_account_id := "b"
          idempotency_key := "k", source := "webhook", created_at := 0
          retry_count := 1, max_retries := 5 }
        "429" true "rate_limit" none = .toRetry (max (backoffDelay 2) 300) 2 := by
  exact ((C3_retry_delay_selection _ "429" "rate_limit").2.2 (by decide)).2.1 rfl

/-- C4: a `publish_post` job with a `scheduled_post_id` issues the backend
call only when the scheduled post's status read from the store is exactly
`publishing`; for any other read status the job is skipped with no outbound
call and only the execution lock release is issued. -/
theorem C4_publish_post_guard (job : Job) (pid : String) (st : Option String)
    (lockAcquired : Bool) (outcome : CallOutcome)
    (hA : job.action_type = "publish_post")
    (hP : job.payloadScheduledPostId = some pid) :
    (Effect.backendPost job.endpoint ∈
        executeJobEffects job lockAcquired (some st) outcome →
      st = some "publishing") ∧
    (st ≠ some "publishing" → lockAcquired = true →
      executeJobEffects job lockAcquired (some st) outcome =
        [.releaseLock job.job_id]) ∧
    (st ≠ some "publishing" →
      Effect.backendPost job.endpoint ∉
        executeJobEffects job lockAcquired (some st) outcome) := by
  have hsafe : isSafeToExecute job (some st) = (st == some "publishing") := by
    simp [isSafeToExecute, hA, hP]
  by_cases hs : st = some "publishing"
  · subst hs
    refine ⟨fun _ => rfl, fun h => absurd rfl h, fun h => absurd rfl h⟩
  · have : isSafeToExecute job (some st) = false := by
      simp [hsafe, hs]
    cases lockAcquired <;>
      simp [executeJobEffects, this, hs]

/-- Witness for C4 at a concrete input: a publish job whose scheduled post
already reads `published` is skipped, releasing only the lock. -/
theorem C4_publish_post_guard_witness :
    executeJobEffects
        { job_id := "j", action_type := "publish_post", priority := "normal"
          endpoint := "/api/instagram/publish-post"
          payloadScheduledPostId := some "post-1", business_account_id := "b"
          idempotency_key := "post:post-1", source := "content_scheduler"
          created_at := 0, retry_count := 0, max_retries := 5 }
        true (some (some "published")) (.success (some "m")) =
      [.releaseLock "j"] :=
  (C4_publish_post_guard _ "post-1" (some "published") true (.success (some "m"))
      rfl rfl).2.1 (by decide) rfl

/-- C5 counterexample: executing the reply-to-comment shim on a valid input
issues exactly one direct synchronous HTTP POST to the backend proxy and no
queue enqueue, and the DM shim behaves the same — refuting the claim that
these actions are performed by enqueueing a job and never by a direct call. -/
theorem C5_reply_shims_issue_direct_post :
    (replyToComment "Thanks for reaching out!" (.ok "ig_comment_1")).2 =
      [ShimEffect.backendPost BACKEND_REPLY_COMMENT_ENDPOINT] ∧
    (replyToComment "Thanks for reaching out!" (.ok "ig_comment_1")).1.success = true ∧
    (replyToDm "Hi!" (.ok "ig_dm_1")).2 =
      [ShimEffect.backendPost BACKEND_REPLY_DM_ENDPOINT] := by
  refine ⟨rfl, rfl, rfl⟩

/-- C5 (amended): every length-valid execution of the reply-to-comment and
reply-to-dm shims performs a direct synchronous HTTP POST to the backend
proxy endpoint, and neither shim ever enqueues a job on the outbound
queue. -/
theorem C5_reply_shims_direct_not_queued (text : String) (outcome : ShimBackendOutcome) :
    (text.length ≤ MAX_COMMENT_REPLY_LENGTH →
      (replyToComment text outcome).2 =
        [ShimEffect.backendPost BACKEND_REPLY_COMMENT_ENDPOINT]) ∧
    (text.length ≤ 150 →
      (replyToDm text outcome).2 =
        [ShimEffect.backendPost BACKEND_REPLY_DM_ENDPOINT]) ∧
    (∀ a, ShimEffect.enqueueJob a ∉ (replyToComment text outcome).2) ∧
    (∀ a, ShimEffect.enqueueJob a ∉ (replyToDm text outcome).2) := by
  refine ⟨?_, ?_, ?_, ?_⟩
  · intro h
    unfold replyToComment
    rw [if_neg (by omega)]
    cases outcome <;> rfl
  · intro h
    unfold replyToDm
    rw [if_neg (by omega)]
    cases outcome <;> rfl
  · intro a
    unfold replyToComment
    by_cases h : text.length > MAX_COMMENT_REPLY_LENGTH
    · simp [h]
    · rw [if_neg h]
      cases outcome <;> simp
  · intro a
    unfold replyToDm
    by_cases h : text.length > 150
    · simp [h]
    · rw [if_neg h]
      cases outcome <;> simp

/-- Witness for C5 (amended) at a concrete input. -/
theorem C5_reply_shims_direct_not_queued_witness :
    "Hello".length ≤ MAX_COMMENT_REPLY_LENGTH ∧
    (replyToComment "Hello" (.timeout)).2 =
      [ShimEffect.backendPost BACKEND_REPLY_COMMENT_ENDPOINT] :=
  ⟨by decide, (C5_reply_shims_direct_not_queued "Hello" .timeout).1 (by decide)⟩

/-- C7: on every route of the engagement monitor's per-comment pipeline —
escalation, auto-reply (successful or failed), skip, and the per-comment
error handler — the cycle marks the comment processed in the store and adds
its Instagram comment id to the hot dedup set. -/
theorem C7_monitor_marks_processed (c : MonitorComment) (analysis : MonitorAnalysis)
    (thr : ℚ) (enabled replySuccess raised : Bool) :
    (∃ b, MonitorEffect.markProcessedStore c.id b ∈
        (processCommentSafe c analysis thr enabled replySuccess raised).2) ∧
    MonitorEffect.markDedup c.instagramCommentId ∈
      (processCommentSafe c analysis thr enabled replySuccess raised).2 := by
  unfold processCommentSafe processComment handleEscalation handleAutoReply
    handleSkip logCommentError
  cases raised
  · by_cases hn : analysis.needsHuman
    · simp [hn]
    · cases hcond : (analysis.suggestedReply != ""
          && decide (analysis.confidence ≥ thr) && enabled) <;>
        cases replySuccess <;> simp [hn, hcond]
  · simp

/-- A `latestRow` result is a member of the list it was selected from. -/
theorem latestRow_mem : ∀ {l : List StoreRow} {r : StoreRow},
    latestRow l = some r → r ∈ l := by
  intro l
  induction l with
  | nil => intro r h; simp [latestRow] at h
  | cons a rest ih =>
    intro r h
    unfold latestRow at h
    cases hrest : latestRow rest with
    | none =>
      rw [hrest] at h
      simp at h
      simp [h]
    | some best =>
      rw [hrest] at h
      by_cases hgt : best.created_at > a.created_at
      · simp [hgt] at h
        subst h
        exact List.mem_cons_of_mem _ (ih hrest)
      · simp [hgt] at h
        simp [h]

/-- A non-empty list has a `latestRow`. -/
theorem latestRow_of_ne_nil : ∀ {l : List StoreRow}, l ≠ [] →
    ∃ r, latestRow l = some r := by
  intro l
  induction l with
  | nil => intro h; exact absurd rfl h
  | cons a rest ih =>
    intro _
    unfold latestRow
    cases hrest : latestRow rest with
    | none => exact ⟨a, rfl⟩
    | some best =>
      by_cases hgt : best.created_at > a.created_at
      · exact ⟨best, by simp [hgt]⟩
      · exact ⟨a, by simp [hgt]⟩

/-- Embeds `activeMatches` distributes over appended store contents. -/
theorem activeMatches_append (a b : List StoreRow) (k : String) :
    activeMatches (a ++ b) k = activeMatches a k ++ activeMatches b k := by
  simp [activeMatches, List.filter_append]

/-- An enqueue whose idempotency lookup hits returns the dedup result and
leaves the state unchanged. -/
theorem enqueue_dedup_of_lookup (s : QueueState) (j : Job) (r : StoreRow)
    (hk : j.idempotency_key ≠ "")
    (hl : getOutboundJobByIdempotencyKey s j.idempotency_key = some r) :
    enqueue s j = ({ success := true, queued := false, job_id := r.job_id,
                     deduplicated := true, backend := none, error := none }, s) := by
  unfold enqueue
  simp [hk, hl]

/-- C1 counterexample: with Redis healthy and an empty store, enqueueing a
job and immediately re-enqueueing under the same idempotency key is not
deduplicated — the Redis fast path records nothing in the store's
idempotency index — and leaves two live jobs, refuting "an enqueue followed
by an immediate re-enqueue with the same idempotency key leaves exactly one
live job". -/
theorem C1_redis_path_two_live_jobs :
    (enqueue c1State c1JobA).1.queued = true ∧
    (enqueue (enqueue c1State c1JobA).2 c1JobB).1.deduplicated = false ∧
    (enqueue (enqueue c1State c1JobA).2 c1JobB).1.queued = true ∧
    liveJobCount (enqueue (enqueue c1State c1JobA).2 c1JobB).2 = 2 := by
  refine ⟨rfl, rfl, rfl, rfl⟩

/-- C1 (amended): when the store already holds an active job under the same
non-empty idempotency key, `enqueue` returns `success=true`,
`deduplicated=true` and an existing active job's id while pushing nothing to
either backend; and on the store-fallback path (Redis unavailable), an
enqueue followed by an immediate re-enqueue with the same key is
deduplicated and leaves exactly one live store job under that key.  (A
Redis-path enqueue does not register its key in the store, so the round trip
does not hold there — see the counterexample.) -/
theorem C1_enqueue_idempotency_dedup (s : QueueState) (job : Job) :
    (s.storeOk = true → job.idempotency_key ≠ "" →
      ∀ row ∈ s.store, row.idempotency_key = job.idempotency_key →
        isActiveStatus row.status = true →
        (enqueue s job).1.success = true ∧
        (enqueue s job).1.queued = false ∧
        (enqueue s job).1.deduplicated = true ∧
        (∃ r0 ∈ s.store, r0.idempotency_key = job.idempotency_key ∧
          isActiveStatus r0.status = true ∧ (enqueue s job).1.job_id = r0.job_id) ∧
        (enqueue s job).2 = s) ∧
    (s.redisAvailable = false → s.storeOk = true → job.idempotency_key ≠ "" →
      activeKeyCount s job.idempotency_key = 0 →
      ∀ job2 : Job, job2.idempotency_key = job.idempotency_key →
        (enqueue s job).1.queued = true ∧
        (enqueue (enqueue s job).2 job2).1.deduplicated = true ∧
        (enqueue (enqueue s job).2 job2).2 = (enqueue s job).2 ∧
        activeKeyCount (enqueue (enqueue s job).2 job2).2 job.idempotency_key = 1) := by
  constructor
  · intro hOk hKey row hMem hRowKey hActive
    have hne : activeMatches s.store job.idempotency_key ≠ [] := by
      intro hnil
      have : row ∈ activeMatches s.store job.idempotency_key := by
        simp [activeMatches, List.mem_filter, hMem, hRowKey, hActive]
      rw [hnil] at this
      exact absurd this (List.not_mem_nil row)
    obtain ⟨r0, hr0⟩ := latestRow_of_ne_nil hne
    have hr0mem := latestRow_mem hr0
    have hr0props : r0.idempotency_key = job.idempotency_key ∧
        isActiveStatus r0.status = true := by
      have := List.mem_filter.mp hr0mem
      simpa [activeMatches] using this.2
    have hlookup : getOutboundJobByIdempotencyKey s job.idempotency_key = some r0 := by
      simp [getOutboundJobByIdempotencyKey, hOk, hKey, hr0]
    have henq := enqueue_dedup_of_lookup s job r0 hKey hlookup
    refine ⟨by rw [henq], by rw [henq], by rw [henq], ?_, by rw [henq]⟩
    refine ⟨r0, List.mem_filter.mp hr0mem |>.1, hr0props.1, hr0props.2, ?_⟩
    rw [henq]
  · intro hRedis hOk hKey hCount job2 hKey2
    have hnil : activeMatches s.store job.idempotency_key = [] :=
      List.length_eq_zero.mp hCount
    have hlookup : getOutboundJobByIdempotencyKey s job.idempotency_key = none := by
      simp [getOutboundJobByIdempotencyKey, hOk, hKey, hnil, latestRow]
    have henq1 : enqueue s job =
        ({ success := true, queued := true, job_id := job.job_id
           deduplicated := false, backend := some "supabase", error := none },
         { s with store := s.store ++ [createOutboundJobRow job] }) := by
      unfold enqueue
      simp [hKey, hlookup, hRedis, hOk]
    have hnewActive : activeMatches [createOutboundJobRow job] job.idempotency_key =
        [createOutboundJobRow job] := by
      simp [activeMatches, createOutboundJobRow, isActiveStatus]
    have hmatches1 : activeMatches ((enqueue s job).2).store job.idempotency_key =
        [createOutboundJobRow job] := by
      rw [henq1]
      simpa [activeMatches_append, hnil] using hnewActive
    have hlookup2 : getOutboundJobByIdempotencyKey (enqueue s job).2 job.idempotency_key
        = some (createOutboundJobRow job) := by
      have hOk1 : ((enqueue s job).2).storeOk = true := by rw [henq1]; exact hOk
      simp [getOutboundJobByIdempotencyKey, hOk1, hKey, hmatches1, latestRow]
    have henq2 := enqueue_dedup_of_lookup (enqueue s job).2 job2 (createOutboundJobRow job)
      (by rw [hKey2]; exact hKey) (by rw [hKey2]; exact hlookup2)
    refine ⟨by rw [henq1], by rw [henq2], by rw [henq2], ?_⟩
    rw [henq2]
    unfold activeKeyCount
    rw [hmatches1]
    rfl

/-- Witness for C1 (amended) at concrete inputs: with Redis down, the first
enqueue lands in the store and the immediate re-enqueue with the same key is
deduplicated, leaving one live store job. -/
theorem C1_enqueue_idempotency_dedup_witness :
    (enqueue { c1State with redisAvailable := false } c1JobA).1.queued = true ∧
    (enqueue (enqueue { c1State with redisAvailable := false } c1JobA).2 c1JobB).1.deduplicated
      = true ∧
    activeKeyCount
      (enqueue (enqueue { c1State with redisAvailable := false } c1JobA).2 c1JobB).2 "k" = 1 := by
  have h := (C1_enqueue_idempotency_dedup { c1State with redisAvailable := false } c1JobA).2
    rfl rfl (by decide) (by decide) c1JobB rfl
  exact ⟨h.1, h.2.1, h.2.2.2⟩

/-- C6: with a configured secret, a webhook POST verifies exactly when the
`X-Hub-Signature-256` header, stripped of its `sha256=` prefix, equals the
HMAC of the raw body; a failed verification returns 401 with no parsing,
store write or outbound effect; and no pipeline effect ever happens without
a successful verification. -/
theorem C6_webhook_signature_gate (mac : String → String → String)
    (secret : String) (req : WebhookRequest) (run : PipelineRun) :
    (secret ≠ "" →
      (verifyInstagramSignature mac secret req = true ↔
        sigHasSha256Tag req.signatureHeader = true ∧
        sigStripSha256 req.signatureHeader = mac secret req.body)) ∧
    (verifyInstagramSignature mac secret req = false →
      webhookPipeline mac secret req run = (401, [])) ∧
    ((webhookPipeline mac secret req run).2 ≠ [] →
      verifyInstagramSignature mac secret req = true) := by
  refine ⟨?_, ?_, ?_⟩
  · intro hs
    unfold verifyInstagramSignature
    rw [if_neg (by simpa using hs)]
    by_cases hh : req.signatureHeader = ""
    · rw [hh]
      have hform : sigHasSha256Tag "" = false := rfl
      simp [hform]
    · rw [if_neg (by simpa using hh)]
      by_cases hp : sigHasSha256Tag req.signatureHeader = true
      · simp [hp]
        exact eq_comm
      · simp [hp]
  · intro hv
    unfold webhookPipeline
    rw [hv]
    simp
  · intro hne
    by_cases hv : verifyInstagramSignature mac secret req = true
    · exact hv
    · exfalso
      apply hne
      have hv2 : verifyInstagramSignature mac secret req = false := by
        simpa using hv
      unfold webhookPipeline
      rw [hv2]
      simp

/-- Witness for C6 at concrete inputs: a correctly signed request verifies,
and a missing header yields 401 with no effects. -/
theorem C6_webhook_signature_gate_witness :
    verifyInstagramSignature (fun s b => s ++ b) "s3"
      { signatureHeader := "sha256=s3payload", body := "payload" } = true ∧
    webhookPipeline (fun s b => s ++ b) "s3"
      { signatureHeader := "", body := "payload" }
      { parseOk := true, hardRuleHit := none,
        analysis := { errorTag := none, needsHuman := false },
        preCheck := none, eventType := "webhook_comment_processed" } = (401, []) := by
  constructor
  · exact ((C6_webhook_signature_gate (fun s b => s ++ b) "s3"
      { signatureHeader := "sha256=s3payload", body := "payload" }
      { parseOk := true, hardRuleHit := none,
        analysis := { errorTag := none, needsHuman := false },
        preCheck := none, eventType := "webhook_comment_processed" }).1
      (by decide)).mpr ⟨rfl, by decide⟩
  · exact (C6_webhook_signature_gate (fun s b => s ++ b) "s3"
      { signatureHeader := "", body := "payload" }
      { parseOk := true, hardRuleHit := none,
        analysis := { errorTag := none, needsHuman := false },
        preCheck := none, eventType := "webhook_comment_processed" }).2.1 rfl

/-- C8 counterexample: on `noise {"a":{"b":{"c":1}}}` (braces escaped in the
source literal) the third stage extracts the depth-two inner block, not the
first balanced brace expression, and the parser therefore returns the inner
object where the spec's reading returns the outer one. -/
theorem C8_brace_stage_not_first_balanced :
    braceExtract "noise \x7b\"a\":\x7b\"b\":\x7b\"c\":1\x7d\x7d\x7d" =
      some "\x7b\"b\":\x7b\"c\":1\x7d\x7d" ∧
    firstBalancedBrace "noise \x7b\"a\":\x7b\"b\":\x7b\"c\":1\x7d\x7d\x7d" =
      some "\x7b\"a\":\x7b\"b\":\x7b\"c\":1\x7d\x7d\x7d" ∧
    braceExtract "noise \x7b\"a\":\x7b\"b\":\x7b\"c\":1\x7d\x7d\x7d" ≠
      firstBalancedBrace "noise \x7b\"a\":\x7b\"b\":\x7b\"c\":1\x7d\x7d\x7d" ∧
    parseJsonResponse "noise \x7b\"a\":\x7b\"b\":\x7b\"c\":1\x7d\x7d\x7d" =
      Json.obj [("b", Json.obj [("c", Json.num "1")])] ∧
    specParseJsonResponse "noise \x7b\"a\":\x7b\"b\":\x7b\"c\":1\x7d\x7d\x7d" =
      Json.obj [("a", Json.obj [("b", Json.obj [("c", Json.num "1")])])] :=
  ⟨rfl, rfl, by decide, rfl, rfl⟩

/-- C8 (amended): the parser tries, in order, a direct parse of the whole
stripped text, extraction from a fenced code block, and the first brace
block of nesting depth at most two (the extraction regex does not match
deeper nesting, so for deeper inputs an inner sub-object is extracted
instead of the first balanced brace expression); when every attempt fails it
returns the sentinel with the stripped text truncated to 500 characters, and
as a total function it never raises. -/
theorem C8_parse_json_response_stages (raw : String) :
    (∀ j, loads (stripStr raw) = some j → parseJsonResponse raw = j) ∧
    (loads (stripStr raw) = none →
      ∀ sub j, fenceExtract (stripStr raw) = some sub → loads sub = some j →
        parseJsonResponse raw = j) ∧
    (loads (stripStr raw) = none →
      (match fenceExtract (stripStr raw) with
        | some sub => loads sub = none
        | none => True) →
      ∀ sub j, braceExtract (stripStr raw) = some sub → loads sub = some j →
        parseJsonResponse raw = j) ∧
    (loads (stripStr raw) = none →
      (match fenceExtract (stripStr raw) with
        | some sub => loads sub = none
        | none => True) →
      (match braceExtract (stripStr raw) with
        | some sub => loads sub = none
        | none => True) →
      parseJsonResponse raw =
        Json.obj [("error", Json.str "json_parse_failed"),
                  ("raw_response", Json.str (truncate500 (stripStr raw)))]) := by
  refine ⟨?_, ?_, ?_, ?_⟩
  · intro j h1
    unfold parseJsonResponse
    rw [h1]
  · intro h1 sub j h2 h3
    unfold parseJsonResponse
    simp only [h1, h2, h3]
  · intro h1 h2 sub j h3 h4
    unfold parseJsonResponse braceStage
    cases hf : fenceExtract (stripStr raw) with
    | none => simp only [h1, hf, h3, h4]
    | some fsub =>
      rw [hf] at h2
      simp only [h1, hf, h2, h3, h4]
  · intro h1 h2 h3
    unfold parseJsonResponse braceStage jsonParseFailedSentinel
    cases hf : fenceExtract (stripStr raw) with
    | none =>
      cases hb : braceExtract (stripStr raw) with
      | none => simp only [h1, hf, hb]
      | some bsub =>
        rw [hb] at h3
        simp only [h1, hf, hb, h3]
    | some fsub =>
      rw [hf] at h2
      cases hb : braceExtract (stripStr raw) with
      | none => simp only [h1, hf, h2, hb]
      | some bsub =>
        rw [hb] at h3
        simp only [h1, hf, h2, hb, h3]

/-- Witness for C8 (amended) at a concrete input: `hello` fails all three
stages and yields the sentinel. -/
theorem C8_parse_json_response_stages_witness :
    parseJsonResponse "hello" =
      Json.obj [("error", Json.str "json_parse_failed"),
                ("raw_response", Json.str (truncate500 (stripStr "hello")))] :=
  (C8_parse_json_response_stages "hello").2.2.2 rfl True.intro True.intro

/-- The rounding step of `_adjust_weights` moves each value by at most half
of the last kept decimal place. -/
theorem roundTo4_close (x : ℚ) : |roundTo4 x - x| ≤ 1/20000 := by
  unfold roundTo4
  have h : |((round (x * 10000) : ℤ) : ℚ) - x * 10000| ≤ 1/2 := by
    rw [abs_sub_comm]
    exact abs_sub_round (x * 10000)
  have e : ((round (x * 10000) : ℤ) : ℚ)/10000 - x =
      (((round (x * 10000) : ℤ) : ℚ) - x * 10000)/10000 := by ring
  rw [e, abs_div]
  have h10 : |(10000 : ℚ)| = 10000 := by norm_num
  rw [h10]
  linarith

/-- C9 counterexample: with prior weights ¼ each and model averages
(1, 1, 1, 0), `_adjust_weights` returns weights summing to 0.9999, not
exactly 1.0 — the final `round(v / total, 4)` breaks the exact sum. -/
theorem C9_rounded_weights_sum_ne_one :
    (adjustWeights
        { last_touch := 1/4, first_touch := 1/4, linear := 1/4, time_decay := 1/4 }
        { last_touch := 1, first_touch := 1, linear := 1, time_decay := 0 }).total =
      9999/10000 ∧ ((9999 : ℚ)/10000) ≠ 1 := by
  constructor
  · norm_num [adjustWeights, blendedWeights, normalizedWeights, blendOne,
      Weights.total, roundTo4, round_eq]
  · norm_num

/-- C9 (amended): for nonnegative prior weights and model averages with a
positive sum, the blended weights are normalized to sum exactly 1.0 before
the per-weight rounding to four decimals, and the returned rounded weights
sum to within 2·10⁻⁴ of 1.0. -/
theorem C9_adjust_weights_normalization (current averages : Weights)
    (hc1 : 0 ≤ current.last_touch) (hc2 : 0 ≤ current.first_touch)
    (hc3 : 0 ≤ current.linear) (hc4 : 0 ≤ current.time_decay)
    (hpos : 0 < averages.total) :
    (normalizedWeights current averages).total = 1 ∧
    |(adjustWeights current averages).total - 1| ≤ 1/5000 := by
  have hT : averages.total ≠ 0 := ne_of_gt hpos
  have hblend : (blendedWeights current averages).total =
      7/10 + 3/10 * current.total := by
    unfold blendedWeights blendOne
    unfold Weights.total at hT ⊢
    field_simp
    ring
  have hcur : 0 ≤ current.total := by
    unfold Weights.total
    have := add_nonneg (add_nonneg (add_nonneg hc1 hc2) hc3) hc4
    linarith
  have hbpos : 0 < (blendedWeights current averages).total := by
    rw [hblend]
    linarith
  have hbne : (blendedWeights current averages).total ≠ 0 := ne_of_gt hbpos
  have hnorm : (normalizedWeights current averages).total = 1 := by
    unfold normalizedWeights
    unfold Weights.total at hbne ⊢
    field_simp
  refine ⟨hnorm, ?_⟩
  have hadj : adjustWeights current averages =
      { last_touch := roundTo4 (normalizedWeights current averages).last_touch,
        first_touch := roundTo4 (normalizedWeights current averages).first_touch,
        linear := roundTo4 (normalizedWeights current averages).linear,
        time_decay := roundTo4 (normalizedWeights current averages).time_decay } := by
    unfold adjustWeights
    rw [if_neg (not_le.mpr hpos), if_pos hbpos]
  rw [hadj]
  have r1 := roundTo4_close (normalizedWeights current averages).last_touch
  have r2 := roundTo4_close (normalizedWeights current averages).first_touch
  have r3 := roundTo4_close (normalizedWeights current averages).linear
  have r4 := roundTo4_close (normalizedWeights current averages).time_decay
  have hn := hnorm
  unfold Weights.total at hn ⊢
  rw [abs_le]
  have a1 := abs_le.mp r1
  have a2 := abs_le.mp r2
  have a3 := abs_le.mp r3
  have a4 := abs_le.mp r4
  constructor <;>
    linarith [a1.1, a1.2, a2.1, a2.2, a3.1, a3.2, a4.1, a4.2]

/-- Witness for C9 (amended) at concrete inputs: the default weights and
all-ones averages satisfy the hypotheses and the two conclusions. -/
theorem C9_adjust_weights_normalization_witness :
    (normalizedWeights defaultWeights
      { last_touch := 1, first_touch := 1, linear := 1, time_decay := 1 }).total = 1 ∧
    |(adjustWeights defaultWeights
      { last_touch := 1, first_touch := 1, linear := 1, time_decay := 1 }).total - 1| ≤
      1/5000 :=
  C9_adjust_weights_normalization defaultWeights
    { last_touch := 1, first_touch := 1, linear := 1, time_decay := 1 }
    (by norm_num [defaultWeights]) (by norm_num [defaultWeights])
    (by norm_num [defaultWeights]) (by norm_num [defaultWeights])
    (by norm_num [Weights.total])

end IGAgent
